import Mathlib

/-!
# Design-pattern examples: observer (interface based and channel based) and HTTP decorators

A shallow embedding of three Go programs of the repository:

* `DesignPatterns/observePattern/observe_pattern.go`          (namespace `ObservePattern`)
* `DesignPatterns/observePattern/observe_pattern_channels.go` (namespace `ObservePatternChannels`)
* `DesignPatterns/decoratorPattern/decorator_pattern.go`      (namespace `DecoratorPattern`)

Go methods that mutate their receiver become functions returning the new receiver.
Observable actions (a line written to standard output, a method call on an observer,
a send on a channel) are returned as an ordered list of effects, in program order.
-/

/-! ## observe_pattern.go -/

namespace ObservePattern

/-- An observable action of the subject. `update obs id st` is the call
`obs.Update(id, st)` on an interface value; `println s` is the text `s` written to
standard output. -/
inductive Effect (Obs : Type) where
  | println (text : String)
  | update (observer : Obs) (orderID : String) (status : String)
  deriving DecidableEq, Repr

/-- `type OrderService struct { observers []Observer; orderID string; status string }`.
`Obs` is the type of the interface values stored in the slice; Go compares two of them
with `==`, which is the decidable equality of `Obs`. -/
structure OrderService (Obs : Type) where
  observers : List Obs
  orderID : String
  status : String
  deriving DecidableEq, Repr

variable {Obs : Type}

/-- `o.observers = append(o.observers, observer)`. -/
def OrderService.Register (o : OrderService Obs) (observer : Obs) : OrderService Obs :=
  { o with observers := o.observers ++ [observer] }

/-- The `for i, obs := range o.observers` loop of `Deregister`: `all` is the slice the
loop ranges over, `i` the current index and the list argument the elements from index `i`
on. At the first `obs == observer` the slice becomes
`append(all[:i], all[i+1:]...)` and the loop breaks; with no match it stays `all`. -/
def OrderService.Deregister.loop [DecidableEq Obs] (observer : Obs) (all : List Obs) :
    Nat → List Obs → List Obs
  | _, [] => all
  | i, obs :: rest =>
    if obs = observer then all.take i ++ all.drop (i + 1)
    else OrderService.Deregister.loop observer all (i + 1) rest

/-- `func (o *OrderService) Deregister(observer Observer)`. -/
def OrderService.Deregister [DecidableEq Obs] (o : OrderService Obs) (observer : Obs) :
    OrderService Obs :=
  { o with observers := OrderService.Deregister.loop observer o.observers 0 o.observers }

/-- The `for _, observer := range o.observers` loop of `NotifyAll`:
one `observer.Update(o.orderID, o.status)` per element, in slice order. -/
def OrderService.NotifyAll.loop (orderID status : String) : List Obs → List (Effect Obs)
  | [] => []
  | observer :: rest =>
    Effect.update observer orderID status :: OrderService.NotifyAll.loop orderID status rest

/-- `func (o *OrderService) NotifyAll()`. -/
def OrderService.NotifyAll (o : OrderService Obs) : List (Effect Obs) :=
  OrderService.NotifyAll.loop o.orderID o.status o.observers

/-- `func (o *OrderService) UpdateStatus(status string)`: store the status, print the
banner (`fmt.Println` joins its operands with a blank and ends the line), notify. -/
def OrderService.UpdateStatus (o : OrderService Obs) (status : String) :
    OrderService Obs × List (Effect Obs) :=
  let o1 : OrderService Obs := { o with status := status }
  (o1, Effect.println ("\n Order status updated to: " ++ status ++ "\n") :: o1.NotifyAll)

/-- Number of `Update` calls made on the observer `x` in a trace, whatever the arguments. -/
def updatesTo [DecidableEq Obs] (x : Obs) : List (Effect Obs) → Nat
  | [] => 0
  | Effect.update y _ _ :: rest => (if y = x then 1 else 0) + updatesTo x rest
  | Effect.println _ :: rest => updatesTo x rest

/-- `type EmailNotifier struct { email string }`. -/
structure EmailNotifier where
  email : String
  deriving DecidableEq, Repr

/-- `type SMSNotifier struct { phone string }`. -/
structure SMSNotifier where
  phone : String
  deriving DecidableEq, Repr

/-- `func (e *EmailNotifier) Update(orderID string, status string)`: the text printed. -/
def EmailNotifier.Update (e : EmailNotifier) (orderID status : String) : String :=
  "📧 Email to " ++ e.email ++ ": Order " ++ orderID ++ " is now \x27" ++ status ++ "\x27\n"

/-- `func (s *SMSNotifier) Update(orderID string, status string)`: the text printed. -/
def SMSNotifier.Update (s : SMSNotifier) (orderID status : String) : String :=
  "📱 SMS to " ++ s.phone ++ ": Order " ++ orderID ++ " is now \x27" ++ status ++ "\x27\n"

/-- The `Observer` interface values of the program: a pointer to an `EmailNotifier` or to
an `SMSNotifier`. `addr` stands for the address; two values are `==` in Go when dynamic
type and address agree, and one address holds one pointee. -/
inductive Observer where
  | emailNotifier (addr : Nat) (pointee : EmailNotifier)
  | smsNotifier (addr : Nat) (pointee : SMSNotifier)
  deriving DecidableEq, Repr

/-- Dynamic dispatch of `Update` on an interface value. -/
def Observer.Update : Observer → String → String → String
  | Observer.emailNotifier _ e, orderID, status => e.Update orderID status
  | Observer.smsNotifier _ s, orderID, status => s.Update orderID status

/-- Standard output produced by a trace of the concrete program. -/
def stdout : List (Effect Observer) → List String
  | [] => []
  | Effect.println s :: rest => s :: stdout rest
  | Effect.update obs orderID status :: rest => obs.Update orderID status :: stdout rest

/-- `emailNotif := &EmailNotifier{email: "user@example.com"}`. -/
def emailNotif : Observer := Observer.emailNotifier 1 { email := "user@example.com" }

/-- `smsNotif := &SMSNotifier{phone: "+1234567890"}`. -/
def smsNotif : Observer := Observer.smsNotifier 2 { phone := "+1234567890" }

/-- `orderService := &OrderService{orderID: "ORD123"}`. -/
def orderService : OrderService Observer := { observers := [], orderID := "ORD123", status := "" }

/-- The body of `main`: the final service and everything it did, in order. -/
def main : OrderService Observer × List (Effect Observer) :=
  let s0 := orderService
  let s1 := s0.Register emailNotif
  let s2 := s1.Register smsNotif
  let r3 := s2.UpdateStatus "Placed"
  let r4 := r3.1.UpdateStatus "Shipped"
  let s5 := r4.1.Deregister smsNotif
  let r6 := s5.UpdateStatus "Delivered"
  (r6.1, r3.2 ++ r4.2 ++ r6.2)

end ObservePattern

/-! ## observe_pattern_channels.go -/

namespace ObservePatternChannels

/-- `type Notification struct { OrderID string; Status string }`. -/
structure Notification where
  OrderID : String
  Status : String
  deriving DecidableEq, Repr

/-- A Go channel value is a reference to a channel object: `id` is the identity of the
object and `cap` the capacity it was made with (`make(chan T)` makes capacity 0, an
unbuffered channel). -/
structure Chan where
  id : Nat
  cap : Nat
  deriving DecidableEq, Repr

/-- `type ObserverChannel struct { Name string; Channel chan Notification; Done chan bool }`. -/
structure ObserverChannel where
  Name : String
  Channel : Chan
  Done : Chan
  deriving DecidableEq, Repr

/-- What one iteration of the `select` in `Listen` takes: a value from `o.Channel`
(`case notif := <-o.Channel`) or a value from `o.Done` (`case <-o.Done`). -/
inductive Received where
  | notif (n : Notification)
  | done (b : Bool)
  deriving DecidableEq, Repr

/-- What a call of `Listen` has done: the text it printed, line by line, and whether it
has executed its `return`. -/
structure ListenResult where
  printed : List String
  returned : Bool
  deriving DecidableEq, Repr

/-- The text of `fmt.Printf("%s received update: Order %s is now '%s'\n", ...)`. -/
def ObserverChannel.receivedLine (o : ObserverChannel) (notif : Notification) : String :=
  o.Name ++ " received update: Order " ++ notif.OrderID ++ " is now \x27" ++ notif.Status ++ "\x27\n"

/-- The text of `fmt.Printf("%s shutting down...\n", o.Name)`. -/
def ObserverChannel.shutdownLine (o : ObserverChannel) : String :=
  o.Name ++ " shutting down...\n"

/-- `func (o *ObserverChannel) Listen()`: the `for { select { ... } }` loop run on the
sequence of values its `select` takes. A notification is printed and the loop goes on; a
value on `Done` is printed and the function returns, whatever is offered afterwards. When
the sequence is exhausted the loop is still waiting in `select` (`returned = false`). -/
def ObserverChannel.Listen (o : ObserverChannel) : List Received → ListenResult
  | [] => { printed := [], returned := false }
  | Received.notif notif :: rest =>
    let r := ObserverChannel.Listen o rest
    { printed := o.receivedLine notif :: r.printed, returned := r.returned }
  | Received.done _ :: _ => { printed := [o.shutdownLine], returned := true }

/-- The two states of the subscriber loop named by the specification. -/
inductive ListenState where
  | Listening
  | Terminated
  deriving DecidableEq, Repr

/-- The subscriber state machine, written from the words of the specification (section
4.2), to be compared with `ObserverChannel.Listen`: while Listening a notification is
handled and the state stays Listening, a shutdown signal is recorded and the state becomes
Terminated; Terminated has no step. The result is the next state and the line recorded. -/
def SubscriberMachine.step (o : ObserverChannel) : ListenState → Received → Option (ListenState × String)
  | ListenState.Listening, Received.notif n => some (ListenState.Listening, o.receivedLine n)
  | ListenState.Listening, Received.done _ => some (ListenState.Terminated, o.shutdownLine)
  | ListenState.Terminated, _ => none

/-- Runs the specification machine over a sequence of events: it steps while a step
exists and stops at the first event for which there is none. -/
def SubscriberMachine.run (o : ObserverChannel) : ListenState → List Received → ListenState × List String
  | s, [] => (s, [])
  | s, e :: rest =>
    match SubscriberMachine.step o s e with
    | none => (s, [])
    | some (s1, line) =>
      let r := SubscriberMachine.run o s1 rest
      (r.1, line :: r.2)

/-- An observable action of the order service: text written to standard output, or the
send statement `ch <- n`. -/
inductive Effect where
  | println (text : String)
  | send (ch : Chan) (n : Notification)
  deriving DecidableEq, Repr

/-- `type OrderService struct { OrderID string; Status string; Subscribers []*ObserverChannel }`.
The slice holds pointers; no field of an `ObserverChannel` is assigned after construction,
so an element is represented by the record it points to. -/
structure OrderService where
  OrderID : String
  Status : String
  Subscribers : List ObserverChannel
  deriving DecidableEq, Repr

/-- `o.Subscribers = append(o.Subscribers, observer)`. -/
def OrderService.Register (o : OrderService) (observer : ObserverChannel) : OrderService :=
  { o with Subscribers := o.Subscribers ++ [observer] }

/-- The `for _, obs := range o.Subscribers` loop of `NotifyAll`: one statement
`obs.Channel <- Notification{OrderID: o.OrderID, Status: o.Status}` per element, in slice
order. -/
def OrderService.NotifyAll.loop (OrderID Status : String) : List ObserverChannel → List Effect
  | [] => []
  | obs :: rest =>
    Effect.send obs.Channel { OrderID := OrderID, Status := Status } ::
      OrderService.NotifyAll.loop OrderID Status rest

/-- `func (o *OrderService) NotifyAll()`: the send statements it executes, in program order. -/
def OrderService.NotifyAll (o : OrderService) : List Effect :=
  OrderService.NotifyAll.loop o.OrderID o.Status o.Subscribers

/-- `func (o *OrderService) UpdateStatus(status string)`. -/
def OrderService.UpdateStatus (o : OrderService) (status : String) : OrderService × List Effect :=
  let o1 : OrderService := { o with Status := status }
  (o1, Effect.println ("\nOrder status updated to: " ++ status ++ "\n") :: o1.NotifyAll)

/-- The send statements of a trace, as (channel, payload) pairs in order. -/
def sends : List Effect → List (Chan × Notification)
  | [] => []
  | Effect.send ch n :: rest => (ch, n) :: sends rest
  | Effect.println _ :: rest => sends rest

/-- How far a sequence of statements gets: the statements that completed, and the send
that is blocked for ever, if any. The caller gets control back only when `pending` is
`none`. -/
structure Run where
  completed : List Effect
  pending : Option Effect
  deriving DecidableEq, Repr

/-- Execution of a statement sequence by one goroutine, following the Go rules for a
send. `receiving i` tells whether the goroutine reading channel `i` reaches its receive;
`queued i` is the number of values waiting in the buffer of channel `i`. Printing always
completes. A send on a channel that is being received from completes. A send on a
channel nobody receives from completes only while the buffer has room, which an
unbuffered channel never has; otherwise it never completes and nothing after it is
executed. -/
def execute (receiving : Nat → Bool) : (Nat → Nat) → List Effect → Run
  | _, [] => { completed := [], pending := none }
  | queued, Effect.println s :: rest =>
    let r := execute receiving queued rest
    { completed := Effect.println s :: r.completed, pending := r.pending }
  | queued, Effect.send ch n :: rest =>
    if receiving ch.id then
      let r := execute receiving queued rest
      { completed := Effect.send ch n :: r.completed, pending := r.pending }
    else if queued ch.id < ch.cap then
      let r := execute receiving (Function.update queued ch.id (queued ch.id + 1)) rest
      { completed := Effect.send ch n :: r.completed, pending := r.pending }
    else { completed := [], pending := some (Effect.send ch n) }

/-- `emailObserver` of `main`. -/
def emailObserver : ObserverChannel :=
  { Name := "📧 EmailNotifier", Channel := { id := 1, cap := 0 }, Done := { id := 2, cap := 0 } }

/-- `smsObserver` of `main`. -/
def smsObserver : ObserverChannel :=
  { Name := "📱 SMSNotifier", Channel := { id := 3, cap := 0 }, Done := { id := 4, cap := 0 } }

/-- `order := &OrderService{OrderID: "ORD987"}`. -/
def order : OrderService := { OrderID := "ORD987", Status := "", Subscribers := [] }

end ObservePatternChannels

/-! ## decorator_pattern.go -/

namespace DecoratorPattern

/-- The request header map (`http.Header`), keys in canonical form, each with its values. -/
abbrev Header := List (String × List String)

/-- `Header.Get`: the first value stored under the key, `""` when there is none. -/
def Header.Get (h : Header) (key : String) : String :=
  match h.lookup key with
  | some (v :: _) => v
  | _ => ""

/-- The parts of `*http.Request` the handlers read. -/
structure Request where
  Method : String
  Path : String
  Header : Header
  deriving DecidableEq, Repr

/-- The response under construction behind an `http.ResponseWriter`: the status code once
the header has been written, and the body text so far. -/
structure ResponseWriter where
  status : Option Nat
  body : String
  deriving DecidableEq, Repr

/-- A response nothing has been written to. -/
def ResponseWriter.fresh : ResponseWriter := { status := none, body := "" }

/-- `w.WriteHeader(code)`: the first call fixes the status code, later calls change nothing. -/
def ResponseWriter.WriteHeader (w : ResponseWriter) (code : Nat) : ResponseWriter :=
  match w.status with
  | none => { w with status := some code }
  | some _ => w

/-- `w.Write(text)`: writes the header with status 200 when none was written, then the text. -/
def ResponseWriter.Write (w : ResponseWriter) (text : String) : ResponseWriter :=
  let w1 := w.WriteHeader 200
  { w1 with body := w1.body ++ text }

/-- `http.Error(w, error, code)`: `w.WriteHeader(code)` then `fmt.Fprintln(w, error)`. -/
def ResponseWriter.Error (w : ResponseWriter) (error : String) (code : Nat) : ResponseWriter :=
  (w.WriteHeader code).Write (error ++ "\n")

/-- `http.StatusUnauthorized`. -/
def StatusUnauthorized : Nat := 401

/-- `http.StatusTooManyRequests`. -/
def StatusTooManyRequests : Nat := 429

/-- Two-complement wrap-around of Go's `int` on a 64-bit platform: the value of an
arithmetic result as the machine stores it. -/
def wrapInt (x : Int) : Int := (x + 2 ^ 63) % 2 ^ 64 - 2 ^ 63

/-- What a handler can read and change besides its two arguments: the package variable
`requestCount`, standard output, and `ext`, the variables a handler passed in as `next`
closes over. -/
structure World (σ : Type) where
  requestCount : Int
  stdout : List String
  ext : σ

/-- `http.HandlerFunc`, as a state transformer. -/
abbrev HandlerFunc (σ : Type) := ResponseWriter → Request → World σ → ResponseWriter × World σ

variable {σ : Type}

/-- `func HelloHandler(w http.ResponseWriter, r *http.Request)`. -/
def HelloHandler : HandlerFunc σ := fun w _ s =>
  (w.Write "Hello, user!\n", s)

/-- `func LoggingMiddleware(next http.HandlerFunc) http.HandlerFunc`. -/
def LoggingMiddleware (next : HandlerFunc σ) : HandlerFunc σ := fun w r s =>
  let s1 : World σ :=
    { s with stdout := s.stdout ++ ["[LOG] Incoming request: " ++ r.Method ++ " " ++ r.Path ++ "\n"] }
  next w r s1

/-- `func AuthMiddleware(next http.HandlerFunc) http.HandlerFunc`. -/
def AuthMiddleware (next : HandlerFunc σ) : HandlerFunc σ := fun w r s =>
  let token := Header.Get r.Header "Authorization"
  if token ≠ "Bearer secret-token" then
    (w.Error "Unauthorized" StatusUnauthorized, s)
  else
    next w r s

/-- `func RateLimitMiddleware(next http.HandlerFunc) http.HandlerFunc`, with
`requestCount++` on a machine integer. -/
def RateLimitMiddleware (next : HandlerFunc σ) : HandlerFunc σ := fun w r s =>
  let s1 : World σ := { s with requestCount := wrapInt (s.requestCount + 1) }
  if s1.requestCount > 5 then
    (w.Error "Rate limit exceeded" StatusTooManyRequests, s1)
  else
    next w r s1

/-- `finalHandler := LoggingMiddleware(AuthMiddleware(RateLimitMiddleware(HelloHandler)))`. -/
def finalHandler : HandlerFunc σ :=
  LoggingMiddleware (AuthMiddleware (RateLimitMiddleware HelloHandler))

/-- The state of the program when it starts: `var requestCount = 0`, nothing printed. -/
def World.start (e : σ) : World σ := { requestCount := 0, stdout := [], ext := e }

/-- Where a goroutine running the handler that `RateLimitMiddleware(next)` returns stands.
The statement `requestCount++` reads the package variable and then writes back the value
read plus one; the program puts no lock and no atomic operation around it, so another
goroutine can run between the read (`loaded v`: `v` was read) and the write (`stored`). -/
inductive Phase where
  | start
  | loaded (v : Int)
  | stored
  | returned
  deriving DecidableEq, Repr

/-- One request being served. `http.ListenAndServe` runs the handler of each connection in
a goroutine of its own, with its own request and response writer. -/
structure Goroutine where
  r : Request
  w : ResponseWriter
  phase : Phase
  deriving DecidableEq, Repr

/-- The next action of a goroutine inside the handler of `RateLimitMiddleware(next)`, on
the state all goroutines share: the read of `requestCount++`, its write, then the test
`requestCount > 5` with the branch it selects (`http.Error` and `return`, or `next(w, r)`).
A goroutine that has returned does nothing. -/
def Goroutine.step (next : HandlerFunc σ) (g : Goroutine) (s : World σ) : Goroutine × World σ :=
  match g.phase with
  | Phase.start => ({ g with phase := Phase.loaded s.requestCount }, s)
  | Phase.loaded v => ({ g with phase := Phase.stored }, { s with requestCount := wrapInt (v + 1) })
  | Phase.stored =>
    if s.requestCount > 5 then
      ({ g with w := g.w.Error "Rate limit exceeded" StatusTooManyRequests,
                phase := Phase.returned }, s)
    else
      let a := next g.w g.r s
      ({ g with w := a.1, phase := Phase.returned }, a.2)
  | Phase.returned => (g, s)

/-- The server while it handles requests: the shared state and the goroutines, one per
request, in the order in which the requests arrived. -/
structure Server (σ : Type) where
  world : World σ
  goroutines : List Goroutine

/-- The requests `rs` have arrived and each has its goroutine, none of which has run yet. -/
def Server.accept (rs : List Request) (s : World σ) : Server σ :=
  { world := s,
    goroutines := rs.map (fun r => { r := r, w := ResponseWriter.fresh, phase := Phase.start }) }

/-- The scheduler lets goroutine number `i` perform its next action. -/
def Server.step (next : HandlerFunc σ) (sv : Server σ) (i : Nat) : Server σ :=
  match sv.goroutines[i]? with
  | none => sv
  | some g =>
    let a := g.step next sv.world
    { world := a.2, goroutines := sv.goroutines.set i a.1 }

/-- The server run along a schedule: the list names, action by action, the goroutine that
runs next. -/
def Server.run (next : HandlerFunc σ) : Server σ → List Nat → Server σ
  | sv, [] => sv
  | sv, i :: rest => Server.run next (Server.step next sv i) rest

/-- The schedule in which every request is handled to the end before the next one starts. -/
def oneAtATime : List Nat := [0, 0, 0, 1, 1, 1, 2, 2, 2, 3, 3, 3, 4, 4, 4, 5, 5, 5]

/-- A schedule of six simultaneous requests: all six goroutines read `requestCount`, then
all six write it, then all six test it. -/
def interleaved : List Nat := [0, 1, 2, 3, 4, 5, 0, 1, 2, 3, 4, 5, 0, 1, 2, 3, 4, 5]

/-- A handler that does nothing but count how often it is called, in `ext`. -/
def countingNext : HandlerFunc Nat := fun w _ s =>
  (w, { s with ext := s.ext + 1 })

/-- A request carrying the accepted token. -/
def authorizedRequest : Request :=
  { Method := "GET", Path := "/hello", Header := [("Authorization", ["Bearer secret-token"])] }

end DecoratorPattern

/-! ## Properties of observe_pattern.go -/

namespace ObservePattern

variable {Obs : Type}

theorem Deregister.loop_spec [DecidableEq Obs] (x : Obs) (all : List Obs) :
    ∀ (done rest : List Obs), all = done ++ rest → x ∉ done →
      OrderService.Deregister.loop x all done.length rest = done ++ rest.erase x := by
  intro done rest
  induction rest generalizing done with
  | nil =>
    intro h _
    simp [OrderService.Deregister.loop, h]
  | cons a rest ih =>
    intro h hx
    unfold OrderService.Deregister.loop
    by_cases ha : a = x
    · subst ha
      simp [h, List.take_append_eq_append_take, List.drop_append_eq_append_drop]
    · have h2 : all = (done ++ [a]) ++ rest := by simp [h]
      have hx2 : x ∉ done ++ [a] := by
        simp only [List.mem_append, List.mem_singleton, not_or]
        exact ⟨hx, fun e => ha e.symm⟩
      have := ih (done ++ [a]) h2 hx2
      simp only [List.length_append, List.length_singleton] at this
      rw [if_neg ha, this]
      simp [List.erase_cons_tail, ha]

theorem Deregister_observers_eq_erase [DecidableEq Obs] (o : OrderService Obs) (x : Obs) :
    (o.Deregister x).observers = o.observers.erase x := by
  have := Deregister.loop_spec x o.observers [] o.observers rfl (by simp)
  simpa [OrderService.Deregister] using this

end ObservePattern

namespace ObservePattern

variable {Obs : Type}

theorem updatesTo_NotifyAll_loop [DecidableEq Obs] (x : Obs) (orderID status : String)
    (l : List Obs) :
    updatesTo x (OrderService.NotifyAll.loop orderID status l) = l.count x := by
  induction l with
  | nil => rfl
  | cons a l ih =>
    simp only [OrderService.NotifyAll.loop, updatesTo, ih, List.count_cons, beq_iff_eq]
    omega

theorem count_update_NotifyAll_loop [DecidableEq Obs] (x : Obs) (orderID status : String)
    (l : List Obs) :
    List.count (Effect.update x orderID status) (OrderService.NotifyAll.loop orderID status l)
      = l.count x := by
  induction l with
  | nil => rfl
  | cons a l ih =>
    simp only [OrderService.NotifyAll.loop, List.count_cons, ih, beq_iff_eq,
      Effect.update.injEq, and_true]

theorem updatesTo_UpdateStatus [DecidableEq Obs] (o : OrderService Obs) (x : Obs) (v : String) :
    updatesTo x (o.UpdateStatus v).2 = o.observers.count x := by
  simp [OrderService.UpdateStatus, OrderService.NotifyAll, updatesTo, updatesTo_NotifyAll_loop]

theorem count_update_UpdateStatus [DecidableEq Obs] (o : OrderService Obs) (x : Obs) (v : String) :
    List.count (Effect.update x o.orderID v) (o.UpdateStatus v).2 = o.observers.count x := by
  simp [OrderService.UpdateStatus, OrderService.NotifyAll, List.count_cons,
    count_update_NotifyAll_loop]

/-- C9: `Deregister(x)` touches only the observer slice; when `x` occurs in it the result
is the part before the first `x` followed by the part after it (one element shorter, all
other elements in their original order), and when `x` does not occur the slice is
unchanged. -/
theorem Deregister_removes_first_occurrence [DecidableEq Obs] (o : OrderService Obs) (x : Obs) :
    (o.Deregister x).orderID = o.orderID ∧ (o.Deregister x).status = o.status ∧
    (x ∈ o.observers →
      ∃ pre suf, o.observers = pre ++ x :: suf ∧ x ∉ pre ∧
        (o.Deregister x).observers = pre ++ suf ∧
        (o.Deregister x).observers.length + 1 = o.observers.length) ∧
    (x ∉ o.observers → (o.Deregister x).observers = o.observers) := by
  refine ⟨rfl, rfl, ?_, ?_⟩
  · intro hx
    obtain ⟨pre, suf, hpre, hsplit, herase⟩ := List.exists_erase_eq hx
    refine ⟨pre, suf, hsplit, hpre, ?_, ?_⟩
    · rw [Deregister_observers_eq_erase, herase]
    · rw [Deregister_observers_eq_erase, herase, hsplit]
      simp only [List.length_append, List.length_cons]
      omega
  · intro hx
    rw [Deregister_observers_eq_erase, List.erase_of_not_mem hx]

/-- C9 at a concrete slice: removing 7 from [7, 4, 7, 9] splits it at the first 7. -/
theorem Deregister_removes_first_occurrence_witness :
    ∃ pre suf, [7, 4, 7, 9] = pre ++ 7 :: suf ∧ 7 ∉ pre ∧
      (OrderService.Deregister
        ({ observers := [7, 4, 7, 9], orderID := "ORD123", status := "" } : OrderService Nat)
        7).observers = pre ++ suf ∧
      (OrderService.Deregister
        ({ observers := [7, 4, 7, 9], orderID := "ORD123", status := "" } : OrderService Nat)
        7).observers.length + 1 = [7, 4, 7, 9].length :=
  (Deregister_removes_first_occurrence
    ({ observers := [7, 4, 7, 9], orderID := "ORD123", status := "" } : OrderService Nat)
    7).2.2.1 (by decide)

/-- C2 as stated fails when an observer is registered twice: with the SMS notifier
registered twice, after `Deregister(smsNotif)` the call `UpdateStatus("Delivered")` still
invokes `smsNotif.Update` once. -/
theorem Deregister_duplicate_still_notified :
    smsNotif ∈ ((orderService.Register smsNotif).Register smsNotif).observers ∧
    updatesTo smsNotif
      ((((orderService.Register smsNotif).Register smsNotif).Deregister smsNotif).UpdateStatus
        "Delivered").2 = 1 := by
  decide

/-- C2, amended: when no observer is registered more than once, after `Deregister(sk)` of
a registered `sk` a call `UpdateStatus(v)` makes no `Update` call on `sk` and exactly one
call, `Update(orderID, v)`, on every other registered observer. -/
theorem UpdateStatus_after_Deregister [DecidableEq Obs] (o : OrderService Obs) (sk : Obs)
    (v : String) (hnodup : o.observers.Nodup) (hsk : sk ∈ o.observers) :
    updatesTo sk ((o.Deregister sk).UpdateStatus v).2 = 0 ∧
    ∀ other ∈ o.observers, other ≠ sk →
      updatesTo other ((o.Deregister sk).UpdateStatus v).2 = 1 ∧
      List.count (Effect.update other o.orderID v) ((o.Deregister sk).UpdateStatus v).2 = 1 := by
  have hsk1 : o.observers.count sk = 1 := List.count_eq_one_of_mem hnodup hsk
  refine ⟨?_, ?_⟩
  · rw [updatesTo_UpdateStatus, Deregister_observers_eq_erase, List.count_erase_self, hsk1]
  · intro other hother hne
    have h1 : o.observers.count other = 1 := List.count_eq_one_of_mem hnodup hother
    have h2 : (o.Deregister sk).orderID = o.orderID := rfl
    refine ⟨?_, ?_⟩
    · rw [updatesTo_UpdateStatus, Deregister_observers_eq_erase,
        List.count_erase_of_ne hne, h1]
    · rw [← h2, count_update_UpdateStatus, Deregister_observers_eq_erase,
        List.count_erase_of_ne hne, h1]

/-- C2 on the scenario of `main`: Email and SMS registered, SMS deregistered,
`UpdateStatus("Delivered")` reaches only Email. -/
theorem UpdateStatus_after_Deregister_witness :
    updatesTo smsNotif
      ((((orderService.Register emailNotif).Register smsNotif).Deregister smsNotif).UpdateStatus
        "Delivered").2 = 0 ∧
    ∀ other ∈ ((orderService.Register emailNotif).Register smsNotif).observers,
      other ≠ smsNotif →
      updatesTo other
        ((((orderService.Register emailNotif).Register smsNotif).Deregister
          smsNotif).UpdateStatus "Delivered").2 = 1 ∧
      List.count (Effect.update other "ORD123" "Delivered")
        ((((orderService.Register emailNotif).Register smsNotif).Deregister
          smsNotif).UpdateStatus "Delivered").2 = 1 :=
  UpdateStatus_after_Deregister ((orderService.Register emailNotif).Register smsNotif)
    smsNotif "Delivered" (by decide) (by decide)

/-- The last update of `main` prints the banner and the e-mail line only. -/
theorem main_after_Deregister :
    ((((orderService.Register emailNotif).Register smsNotif).Deregister smsNotif).UpdateStatus
        "Delivered").2 =
      [Effect.println "\n Order status updated to: Delivered\n",
       Effect.update emailNotif "ORD123" "Delivered"] := by
  decide

/-- Standard output of `main`: two lines per observer for the first two updates, the
e-mail line alone after the SMS notifier was deregistered. -/
theorem main_stdout :
    stdout main.2 =
      ["\n Order status updated to: Placed\n",
       "📧 Email to user@example.com: Order ORD123 is now \x27Placed\x27\n",
       "📱 SMS to +1234567890: Order ORD123 is now \x27Placed\x27\n",
       "\n Order status updated to: Shipped\n",
       "📧 Email to user@example.com: Order ORD123 is now \x27Shipped\x27\n",
       "📱 SMS to +1234567890: Order ORD123 is now \x27Shipped\x27\n",
       "\n Order status updated to: Delivered\n",
       "📧 Email to user@example.com: Order ORD123 is now \x27Delivered\x27\n"] := by
  decide

end ObservePattern

/-! ## Properties of observe_pattern_channels.go -/

namespace ObservePatternChannels

theorem NotifyAll_loop_eq_map (OrderID Status : String) (l : List ObserverChannel) :
    OrderService.NotifyAll.loop OrderID Status l
      = l.map (fun s => Effect.send s.Channel { OrderID := OrderID, Status := Status }) := by
  induction l with
  | nil => rfl
  | cons a l ih => simp [OrderService.NotifyAll.loop, ih]

theorem sends_map_send (f : ObserverChannel → Notification) (l : List ObserverChannel) :
    sends (l.map (fun s => Effect.send s.Channel (f s))) = l.map (fun s => (s.Channel, f s)) := by
  induction l with
  | nil => rfl
  | cons a l ih => simp [sends, ih]

theorem UpdateStatus_trace (o : OrderService) (v : String) :
    (o.UpdateStatus v).2
      = Effect.println ("\nOrder status updated to: " ++ v ++ "\n") ::
          o.Subscribers.map (fun s => Effect.send s.Channel { OrderID := o.OrderID, Status := v }) := by
  simp [OrderService.UpdateStatus, OrderService.NotifyAll, NotifyAll_loop_eq_map]

theorem UpdateStatus_state (o : OrderService) (v : String) :
    (o.UpdateStatus v).1 = { o with Status := v } := rfl

theorem sends_UpdateStatus (o : OrderService) (v : String) :
    sends (o.UpdateStatus v).2
      = o.Subscribers.map (fun s => (s.Channel, ({ OrderID := o.OrderID, Status := v } : Notification))) := by
  rw [UpdateStatus_trace]
  simp only [sends]
  exact sends_map_send (fun _ => { OrderID := o.OrderID, Status := v }) o.Subscribers

theorem foldl_Register_Subscribers (l : List ObserverChannel) :
    ∀ o : OrderService, (l.foldl OrderService.Register o).Subscribers = o.Subscribers ++ l := by
  induction l with
  | nil => intro o; simp
  | cons a l ih =>
    intro o
    simp [List.foldl_cons, ih, OrderService.Register]

theorem foldl_Register_OrderID (l : List ObserverChannel) :
    ∀ o : OrderService, (l.foldl OrderService.Register o).OrderID = o.OrderID := by
  induction l with
  | nil => intro o; rfl
  | cons a l ih =>
    intro o
    simp [List.foldl_cons, ih, OrderService.Register]

theorem execute_map_send_all (receiving : Nat → Bool) (queued : Nat → Nat)
    (f : ObserverChannel → Notification)
    (l : List ObserverChannel) (h : ∀ s ∈ l, receiving s.Channel.id = true) :
    execute receiving queued (l.map (fun s => Effect.send s.Channel (f s)))
      = { completed := l.map (fun s => Effect.send s.Channel (f s)), pending := none } := by
  induction l with
  | nil => rfl
  | cons a l ih =>
    have ha : receiving a.Channel.id = true := h a (List.mem_cons_self a l)
    have hl : ∀ s ∈ l, receiving s.Channel.id = true :=
      fun s hs => h s (List.mem_cons_of_mem a hs)
    simp [execute, ha, ih hl]

theorem execute_map_send_stalled (receiving : Nat → Bool) (queued : Nat → Nat)
    (f : ObserverChannel → Notification)
    (pre post : List ObserverChannel) (s : ObserverChannel)
    (hpre : ∀ p ∈ pre, receiving p.Channel.id = true)
    (hs : receiving s.Channel.id = false) (hcap : s.Channel.cap = 0) :
    execute receiving queued ((pre ++ s :: post).map (fun s => Effect.send s.Channel (f s)))
      = { completed := pre.map (fun s => Effect.send s.Channel (f s)),
          pending := some (Effect.send s.Channel (f s)) } := by
  induction pre with
  | nil => simp [execute, hs, hcap]
  | cons a pre ih =>
    have ha : receiving a.Channel.id = true := hpre a (List.mem_cons_self a pre)
    have hl : ∀ p ∈ pre, receiving p.Channel.id = true :=
      fun p hp => hpre p (List.mem_cons_of_mem a hp)
    have := ih hl
    rw [List.cons_append, List.map_cons]
    simp only [execute, ha, if_true]
    rw [this, List.map_cons]

theorem execute_initial_segment (receiving : Nat → Bool) (effs : List Effect) :
    ∀ queued : Nat → Nat,
      ∃ k, (execute receiving queued effs).completed
          ++ (execute receiving queued effs).pending.toList = effs.take k := by
  induction effs with
  | nil => intro _; exact ⟨0, rfl⟩
  | cons e effs ih =>
    intro queued
    cases e with
    | println s =>
      obtain ⟨k, hk⟩ := ih queued
      refine ⟨k + 1, ?_⟩
      simp only [execute, List.cons_append, List.take_succ_cons, hk]
    | send ch n =>
      by_cases h : receiving ch.id = true
      · obtain ⟨k, hk⟩ := ih queued
        refine ⟨k + 1, ?_⟩
        simp only [execute, h, if_true, List.cons_append, List.take_succ_cons, hk]
      · by_cases hq : queued ch.id < ch.cap
        · obtain ⟨k, hk⟩ := ih (Function.update queued ch.id (queued ch.id + 1))
          refine ⟨k + 1, ?_⟩
          simp only [execute, h, hq, if_true, List.cons_append, List.take_succ_cons]
          exact congrArg (List.cons (Effect.send ch n)) hk
        · refine ⟨1, ?_⟩
          simp [execute, h, hq]

/-- C1: a service built from an empty one by registering s1, ..., sn in this order holds
exactly that sequence; one `UpdateStatus(v)` then prints the banner and executes exactly
n sends, the i-th on the channel of si with payload `Notification{OrderID, v}`; and when
every subscriber is receiving, all of them complete and the call returns. -/
theorem UpdateStatus_sends_in_registration_order (OrderID st : String)
    (subs : List ObserverChannel) (v : String) :
    (subs.foldl OrderService.Register
        { OrderID := OrderID, Status := st, Subscribers := [] }).Subscribers = subs ∧
    sends ((subs.foldl OrderService.Register
        { OrderID := OrderID, Status := st, Subscribers := [] }).UpdateStatus v).2
      = subs.map (fun s => (s.Channel, ({ OrderID := OrderID, Status := v } : Notification))) ∧
    (sends ((subs.foldl OrderService.Register
        { OrderID := OrderID, Status := st, Subscribers := [] }).UpdateStatus v).2).length
      = subs.length ∧
    (∀ i (h : i < subs.length),
      (sends ((subs.foldl OrderService.Register
          { OrderID := OrderID, Status := st, Subscribers := [] }).UpdateStatus v).2)[i]?
        = some ((subs.get ⟨i, h⟩).Channel, { OrderID := OrderID, Status := v })) ∧
    (∀ (receiving : Nat → Bool) (queued : Nat → Nat),
      (∀ s ∈ subs, receiving s.Channel.id = true) →
      execute receiving queued ((subs.foldl OrderService.Register
          { OrderID := OrderID, Status := st, Subscribers := [] }).UpdateStatus v).2
        = { completed := ((subs.foldl OrderService.Register
              { OrderID := OrderID, Status := st, Subscribers := [] }).UpdateStatus v).2,
            pending := none }) := by
  have hS : (subs.foldl OrderService.Register
      { OrderID := OrderID, Status := st, Subscribers := [] }).Subscribers = subs := by
    rw [foldl_Register_Subscribers]; rfl
  have hI : (subs.foldl OrderService.Register
      { OrderID := OrderID, Status := st, Subscribers := [] }).OrderID = OrderID := by
    rw [foldl_Register_OrderID]
  have hsends := sends_UpdateStatus (subs.foldl OrderService.Register
      { OrderID := OrderID, Status := st, Subscribers := [] }) v
  rw [hS, hI] at hsends
  refine ⟨hS, hsends, ?_, ?_, ?_⟩
  · rw [hsends, List.length_map]
  · intro i h
    rw [hsends, List.getElem?_map, List.getElem?_eq_getElem h]
    rfl
  · intro receiving queued hrec
    rw [UpdateStatus_trace, hS, hI]
    simp only [execute]
    rw [execute_map_send_all receiving queued (fun _ => { OrderID := OrderID, Status := v })
      subs hrec]

/-- C1 on the two observers of `main`: the first send of `UpdateStatus("Order Placed")`
goes to the e-mail observer's channel. -/
theorem UpdateStatus_sends_in_registration_order_witness :
    (sends (([emailObserver, smsObserver].foldl OrderService.Register
        { OrderID := "ORD987", Status := "", Subscribers := [] }).UpdateStatus "Order Placed").2)[0]?
      = some (([emailObserver, smsObserver].get ⟨0, by decide⟩).Channel,
          { OrderID := "ORD987", Status := "Order Placed" }) :=
  (UpdateStatus_sends_in_registration_order "ORD987" "" [emailObserver, smsObserver]
    "Order Placed").2.2.2.1 0 (by decide)

theorem sends_append (a b : List Effect) : sends (a ++ b) = sends a ++ sends b := by
  induction a with
  | nil => rfl
  | cons e a ih => cases e <;> simp [sends, ih]

theorem count_map_channel (n : Notification) (c : Chan) (l : List ObserverChannel) :
    List.count (c, n) (l.map (fun s => (s.Channel, n))) = (l.map (fun s => s.Channel)).count c := by
  induction l with
  | nil => rfl
  | cons a l ih =>
    simp only [List.map_cons, List.count_cons, ih, beq_iff_eq, Prod.mk.injEq, and_true]

/-- C3: `Register` of either program appends its argument to the sequence and changes
nothing else, whether or not the argument is already registered; registering a
subscriber twice adds two sends on its channel (two `Update` calls in the interface
program) to every `UpdateStatus`, and `UpdateStatus` leaves the sequence as it is, so
this holds for each later update as well. -/
theorem Register_appends_duplicates_too :
    (∀ (Obs : Type) (o : ObservePattern.OrderService Obs) (s : Obs),
      (o.Register s).observers = o.observers ++ [s] ∧
      (o.Register s).orderID = o.orderID ∧ (o.Register s).status = o.status) ∧
    (∀ (o : OrderService) (s : ObserverChannel),
      (o.Register s).Subscribers = o.Subscribers ++ [s] ∧
      (o.Register s).OrderID = o.OrderID ∧ (o.Register s).Status = o.Status) ∧
    (∀ (o : OrderService) (s : ObserverChannel) (v : String),
      List.count (s.Channel, ({ OrderID := o.OrderID, Status := v } : Notification))
          (sends (((o.Register s).Register s).UpdateStatus v).2)
        = List.count (s.Channel, ({ OrderID := o.OrderID, Status := v } : Notification))
            (sends (o.UpdateStatus v).2) + 2) ∧
    (∀ (o : OrderService) (v : String), (o.UpdateStatus v).1.Subscribers = o.Subscribers) ∧
    (∀ (Obs : Type) [DecidableEq Obs] (o : ObservePattern.OrderService Obs) (s : Obs) (v : String),
      ObservePattern.updatesTo s (((o.Register s).Register s).UpdateStatus v).2
        = ObservePattern.updatesTo s (o.UpdateStatus v).2 + 2 ∧
      (o.UpdateStatus v).1.observers = o.observers) := by
  refine ⟨fun _ _ _ => ⟨rfl, rfl, rfl⟩, fun _ _ => ⟨rfl, rfl, rfl⟩, ?_, fun _ _ => rfl, ?_⟩
  · intro o s v
    have h1 : ((o.Register s).Register s).OrderID = o.OrderID := rfl
    have h2 : ((o.Register s).Register s).Subscribers = o.Subscribers ++ [s] ++ [s] := rfl
    have h := sends_UpdateStatus ((o.Register s).Register s) v
    rw [h1, h2] at h
    rw [h, sends_UpdateStatus]
    simp [List.count_append, List.count_cons]
  · intro Obs _ o s v
    refine ⟨?_, rfl⟩
    have h2 : ((o.Register s).Register s).observers = o.observers ++ [s] ++ [s] := rfl
    rw [ObservePattern.updatesTo_UpdateStatus, ObservePattern.updatesTo_UpdateStatus, h2]
    simp [List.count_append, List.count_cons]

/-- C4: a second `UpdateStatus(v)` right after the first leaves the service as it was and
does exactly what the first did; together they send, for each registered subscriber in
order, the payload `Notification{OrderID, v}` twice over; nothing is suppressed when `v`
is the current status or the empty string. -/
theorem UpdateStatus_twice_sends_twice (o : OrderService) (v : String) :
    ((o.UpdateStatus v).1.UpdateStatus v).2 = (o.UpdateStatus v).2 ∧
    ((o.UpdateStatus v).1.UpdateStatus v).1 = (o.UpdateStatus v).1 ∧
    sends ((o.UpdateStatus v).2 ++ ((o.UpdateStatus v).1.UpdateStatus v).2)
      = o.Subscribers.map (fun s => (s.Channel, ({ OrderID := o.OrderID, Status := v } : Notification)))
        ++ o.Subscribers.map (fun s => (s.Channel, ({ OrderID := o.OrderID, Status := v } : Notification))) ∧
    (∀ s : ObserverChannel,
      List.count (s.Channel, ({ OrderID := o.OrderID, Status := v } : Notification))
          (sends ((o.UpdateStatus v).2 ++ ((o.UpdateStatus v).1.UpdateStatus v).2))
        = 2 * (o.Subscribers.map (fun s => s.Channel)).count s.Channel) ∧
    sends (o.UpdateStatus o.Status).2
      = o.Subscribers.map (fun s => (s.Channel, ({ OrderID := o.OrderID, Status := o.Status } : Notification))) ∧
    sends (o.UpdateStatus "").2
      = o.Subscribers.map (fun s => (s.Channel, ({ OrderID := o.OrderID, Status := "" } : Notification))) := by
  have h2 : ((o.UpdateStatus v).1.UpdateStatus v).2 = (o.UpdateStatus v).2 := rfl
  have hs : sends ((o.UpdateStatus v).2 ++ ((o.UpdateStatus v).1.UpdateStatus v).2)
      = o.Subscribers.map (fun s => (s.Channel, ({ OrderID := o.OrderID, Status := v } : Notification)))
        ++ o.Subscribers.map (fun s => (s.Channel, ({ OrderID := o.OrderID, Status := v } : Notification))) := by
    rw [h2, sends_append, sends_UpdateStatus]
  refine ⟨rfl, rfl, hs, ?_, sends_UpdateStatus o o.Status, sends_UpdateStatus o ""⟩
  intro s
  rw [hs, List.count_append, count_map_channel]
  omega

/-- C5: the loop of `Listen` is the two-state machine of the specification. While
Listening a notification is handled and the state stays Listening; a shutdown signal
moves to Terminated; Terminated has no step. On every event sequence `Listen` prints
what the machine records and has returned exactly when the machine is Terminated. After
the first shutdown signal nothing offered later is handled: the output ends with the
shutdown line whatever follows. -/
theorem Listen_two_state_machine (o : ObserverChannel) :
    (∀ n, SubscriberMachine.step o ListenState.Listening (Received.notif n)
        = some (ListenState.Listening, o.receivedLine n)) ∧
    (∀ b, SubscriberMachine.step o ListenState.Listening (Received.done b)
        = some (ListenState.Terminated, o.shutdownLine)) ∧
    (∀ e, SubscriberMachine.step o ListenState.Terminated e = none) ∧
    (∀ evs, SubscriberMachine.run o ListenState.Listening evs
        = (if (o.Listen evs).returned then ListenState.Terminated else ListenState.Listening,
            (o.Listen evs).printed)) ∧
    (∀ (ns : List Notification), o.Listen (ns.map Received.notif)
        = { printed := ns.map o.receivedLine, returned := false }) ∧
    (∀ (ns : List Notification) (b : Bool) (later : List Received),
      o.Listen (ns.map Received.notif ++ Received.done b :: later)
        = { printed := ns.map o.receivedLine ++ [o.shutdownLine], returned := true }) := by
  refine ⟨fun _ => rfl, fun _ => rfl, fun _ => rfl, ?_, ?_, ?_⟩
  · intro evs
    induction evs with
    | nil => rfl
    | cons e evs ih =>
      cases e with
      | notif n =>
        simp only [SubscriberMachine.run, SubscriberMachine.step, ObserverChannel.Listen, ih]
      | done b =>
        cases evs <;>
          simp [SubscriberMachine.run, SubscriberMachine.step, ObserverChannel.Listen]
  · intro ns
    induction ns with
    | nil => rfl
    | cons n ns ih => simp [ObserverChannel.Listen, ih]
  · intro ns b later
    induction ns with
    | nil => rfl
    | cons n ns ih => simp [ObserverChannel.Listen, ih]

/-- C6: the statements of `NotifyAll` run one after the other, so what has completed,
followed by the send that is waiting, is always an initial segment of the program-order
sequence: the send to subscriber i+1 is not begun before the send to subscriber i has
completed. When the subscribers before `s` are receiving and `s`, whose channel is
unbuffered, never receives, `NotifyAll` completes exactly the sends to those before `s`
and stays blocked in the send to `s`: no send to a subscriber after `s` is executed, and
`UpdateStatus` likewise does not return. -/
theorem NotifyAll_blocks_at_first_stalled (o : OrderService) (v : String)
    (receiving : Nat → Bool) (queued : Nat → Nat)
    (pre post : List ObserverChannel) (s : ObserverChannel)
    (hsubs : o.Subscribers = pre ++ s :: post)
    (hpre : ∀ p ∈ pre, receiving p.Channel.id = true)
    (hs : receiving s.Channel.id = false) (hcap : s.Channel.cap = 0) :
    (∃ k, (execute receiving queued o.NotifyAll).completed
        ++ (execute receiving queued o.NotifyAll).pending.toList = o.NotifyAll.take k) ∧
    execute receiving queued o.NotifyAll
      = { completed := pre.map (fun p => Effect.send p.Channel { OrderID := o.OrderID, Status := o.Status }),
          pending := some (Effect.send s.Channel { OrderID := o.OrderID, Status := o.Status }) } ∧
    execute receiving queued (o.UpdateStatus v).2
      = { completed := Effect.println ("\nOrder status updated to: " ++ v ++ "\n") ::
            pre.map (fun p => Effect.send p.Channel { OrderID := o.OrderID, Status := v }),
          pending := some (Effect.send s.Channel { OrderID := o.OrderID, Status := v }) } ∧
    (execute receiving queued (o.UpdateStatus v).2).pending ≠ none ∧
    (sends (execute receiving queued (o.UpdateStatus v).2).completed).length = pre.length := by
  have hN : execute receiving queued o.NotifyAll
      = { completed := pre.map (fun p => Effect.send p.Channel { OrderID := o.OrderID, Status := o.Status }),
          pending := some (Effect.send s.Channel { OrderID := o.OrderID, Status := o.Status }) } := by
    rw [OrderService.NotifyAll, NotifyAll_loop_eq_map, hsubs]
    exact execute_map_send_stalled receiving queued
      (fun _ => { OrderID := o.OrderID, Status := o.Status }) pre post s hpre hs hcap
  have hU : execute receiving queued (o.UpdateStatus v).2
      = { completed := Effect.println ("\nOrder status updated to: " ++ v ++ "\n") ::
            pre.map (fun p => Effect.send p.Channel { OrderID := o.OrderID, Status := v }),
          pending := some (Effect.send s.Channel { OrderID := o.OrderID, Status := v }) } := by
    rw [UpdateStatus_trace, hsubs]
    simp only [execute]
    rw [execute_map_send_stalled receiving queued
      (fun _ => { OrderID := o.OrderID, Status := v }) pre post s hpre hs hcap]
  refine ⟨execute_initial_segment receiving o.NotifyAll queued, hN, hU, ?_, ?_⟩
  · rw [hU]; simp
  · rw [hU]
    simp only [sends]
    rw [sends_map_send (fun _ => { OrderID := o.OrderID, Status := v }) pre, List.length_map]

/-- C6 on the service of `main` when only the e-mail observer is receiving: the banner
and the send to the e-mail observer complete, the send to the SMS observer stays
pending. -/
theorem NotifyAll_blocks_at_first_stalled_witness :
    execute (fun i => i == 1) (fun _ => 0)
        (((order.Register emailObserver).Register smsObserver).UpdateStatus "Order Placed").2
      = { completed := [Effect.println "\nOrder status updated to: Order Placed\n",
            Effect.send { id := 1, cap := 0 } { OrderID := "ORD987", Status := "Order Placed" }],
          pending := some (Effect.send { id := 3, cap := 0 }
            { OrderID := "ORD987", Status := "Order Placed" }) } :=
  (NotifyAll_blocks_at_first_stalled ((order.Register emailObserver).Register smsObserver)
    "Order Placed" (fun i => i == 1) (fun _ => 0) [emailObserver] [] smsObserver rfl
    (by decide) (by decide) rfl).2.2.1

/-- The hypothesis of an unbuffered channel matters: were the channel of a subscriber that
never receives made with capacity 1, the first update would complete into the buffer and
only the second would block. -/
theorem buffered_channel_defers_blocking :
    execute (fun _ => false) (fun _ => 0)
        [Effect.send { id := 1, cap := 1 } { OrderID := "ORD987", Status := "a" },
         Effect.send { id := 1, cap := 1 } { OrderID := "ORD987", Status := "b" }]
      = { completed := [Effect.send { id := 1, cap := 1 } { OrderID := "ORD987", Status := "a" }],
          pending := some (Effect.send { id := 1, cap := 1 } { OrderID := "ORD987", Status := "b" }) } := by
  decide

end ObservePatternChannels

/-! ## Properties of decorator_pattern.go -/

namespace DecoratorPattern

variable {σ : Type}

theorem wrapInt_of_inRange (x : Int) (hlo : -(2 ^ 63) ≤ x) (hhi : x < 2 ^ 63) : wrapInt x = x := by
  unfold wrapInt
  omega

theorem RateLimitMiddleware_apply (next : HandlerFunc σ) (w : ResponseWriter) (r : Request)
    (s : World σ) :
    RateLimitMiddleware next w r s
      = if wrapInt (s.requestCount + 1) > 5 then
          (w.Error "Rate limit exceeded" 429, { s with requestCount := wrapInt (s.requestCount + 1) })
        else next w r { s with requestCount := wrapInt (s.requestCount + 1) } := rfl

/-- A request handled with no other goroutine in between, when n - 1 requests have been
counted and n is in the range of `int`: the count becomes n, the request is handed to
`next` for n <= 5 and answered 429 otherwise. -/
theorem RateLimitMiddleware_uninterrupted (next : HandlerFunc σ) (w : ResponseWriter)
    (r : Request) (s : World σ) (n : Int) (h1 : 1 ≤ n) (hn : n < 2 ^ 63)
    (hs : s.requestCount = n - 1) :
    (n ≤ 5 → RateLimitMiddleware next w r s = next w r { s with requestCount := n }) ∧
    (5 < n → RateLimitMiddleware next w r s
      = (w.Error "Rate limit exceeded" 429, { s with requestCount := n })) := by
  have hw : wrapInt (s.requestCount + 1) = n := by
    rw [hs, wrapInt_of_inRange] <;> omega
  refine ⟨?_, ?_⟩
  · intro h5
    rw [RateLimitMiddleware_apply, hw, if_neg (by omega)]
  · intro h5
    rw [RateLimitMiddleware_apply, hw, if_pos (by omega)]

/-- The three actions of a goroutine, taken with nothing in between, are the handler
returned by `RateLimitMiddleware(next)` of the source. -/
theorem Goroutine_step_thrice (next : HandlerFunc σ) (g : Goroutine) (s : World σ)
    (hg : g.phase = Phase.start) :
    Goroutine.step next (Goroutine.step next (Goroutine.step next g s).1
        (Goroutine.step next g s).2).1
        (Goroutine.step next (Goroutine.step next g s).1 (Goroutine.step next g s).2).2
      = ({ g with w := (RateLimitMiddleware next g.w g.r s).1, phase := Phase.returned },
          (RateLimitMiddleware next g.w g.r s).2) := by
  rw [RateLimitMiddleware_apply]
  simp only [Goroutine.step, hg]
  split <;> rfl

/-- Six requests handled one at a time: the count reaches 6, the first five are answered
200 "Hello, user!" and the sixth 429 "Rate limit exceeded". -/
theorem RateLimitMiddleware_one_at_a_time :
    (Server.run HelloHandler
        (Server.accept (List.replicate 6 authorizedRequest) (World.start ()))
        oneAtATime).world.requestCount = 6 ∧
    (Server.run HelloHandler
        (Server.accept (List.replicate 6 authorizedRequest) (World.start ()))
        oneAtATime).goroutines.map (fun g => (g.w, g.phase))
      = List.replicate 5 ({ status := some 200, body := "Hello, user!\n" }, Phase.returned)
        ++ [({ status := some 429, body := "Rate limit exceeded\n" }, Phase.returned)] := by
  set_option maxRecDepth 100000 in
  decide

/-- C7: with the accepted token `AuthMiddleware(next)` is exactly one call of `next` on
the untouched writer, request and state; with any other value of the header, or none, it
answers 401 "Unauthorized" and the result does not depend on `next`. Counted with a
handler that only counts its calls: the count goes up by one and the writer is untouched
if and only if the header equals "Bearer secret-token", and otherwise the count stays. -/
theorem AuthMiddleware_calls_next_iff_token (next : HandlerFunc σ) (w : ResponseWriter)
    (r : Request) (s : World σ) :
    (Header.Get r.Header "Authorization" = "Bearer secret-token" →
      AuthMiddleware next w r s = next w r s) ∧
    (Header.Get r.Header "Authorization" ≠ "Bearer secret-token" →
      AuthMiddleware next w r s = (w.Error "Unauthorized" 401, s)) ∧
    (List.lookup "Authorization" r.Header = none →
      AuthMiddleware next w r s = (w.Error "Unauthorized" 401, s)) ∧
    (Header.Get r.Header "Authorization" ≠ "Bearer secret-token" →
      (AuthMiddleware next ResponseWriter.fresh r s).1
        = { status := some 401, body := "Unauthorized\n" }) ∧
    (∀ c : World Nat,
      ((AuthMiddleware countingNext w r c).2.ext = c.ext + 1 ∧
          (AuthMiddleware countingNext w r c).1 = w
        ↔ Header.Get r.Header "Authorization" = "Bearer secret-token") ∧
      (Header.Get r.Header "Authorization" ≠ "Bearer secret-token" →
        (AuthMiddleware countingNext w r c).2.ext = c.ext)) := by
  have hyes : ∀ (τ : Type) (nx : HandlerFunc τ) (t : World τ),
      Header.Get r.Header "Authorization" = "Bearer secret-token" →
      AuthMiddleware nx w r t = nx w r t := by
    intro τ nx t h
    simp [AuthMiddleware, h]
  have hno : ∀ (τ : Type) (nx : HandlerFunc τ) (w1 : ResponseWriter) (t : World τ),
      Header.Get r.Header "Authorization" ≠ "Bearer secret-token" →
      AuthMiddleware nx w1 r t = (w1.Error "Unauthorized" 401, t) := by
    intro τ nx w1 t h
    simp [AuthMiddleware, h, StatusUnauthorized]
  refine ⟨hyes σ next s, hno σ next w s, ?_, ?_, ?_⟩
  · intro habsent
    apply hno
    simp [Header.Get, habsent]
  · intro h
    rw [hno σ next ResponseWriter.fresh s h]
    rfl
  · intro c
    refine ⟨⟨?_, ?_⟩, ?_⟩
    · rintro ⟨hext, _⟩
      by_contra h
      rw [hno Nat countingNext w c h] at hext
      simp at hext
    · intro h
      rw [hyes Nat countingNext c h]
      exact ⟨rfl, rfl⟩
    · intro h
      rw [hno Nat countingNext w c h]

/-- C7 on two requests: one carrying the accepted token, one without the header. -/
theorem AuthMiddleware_calls_next_iff_token_witness :
    AuthMiddleware HelloHandler ResponseWriter.fresh authorizedRequest (World.start ())
        = HelloHandler ResponseWriter.fresh authorizedRequest (World.start ()) ∧
    AuthMiddleware HelloHandler ResponseWriter.fresh
        { Method := "GET", Path := "/hello", Header := [] } (World.start ())
        = (ResponseWriter.fresh.Error "Unauthorized" 401, World.start ()) :=
  ⟨(AuthMiddleware_calls_next_iff_token HelloHandler ResponseWriter.fresh authorizedRequest
      (World.start ())).1 (by decide),
   (AuthMiddleware_calls_next_iff_token HelloHandler ResponseWriter.fresh
      { Method := "GET", Path := "/hello", Header := [] } (World.start ())).2.2.1 rfl⟩

/-- C8 fails when requests are served at the same time, as `http.ListenAndServe` serves
them: six requests reach the handler of `RateLimitMiddleware(HelloHandler)` with
`requestCount = 0`, all six read the counter before any of them writes it back. Then the
counter ends at 1 instead of 6, and the sixth request, like the other five, passes the
test `requestCount > 5` and is answered 200 "Hello, user!" by `next` instead of 429. -/
theorem RateLimitMiddleware_lost_update_admits_sixth :
    (Server.run HelloHandler
        (Server.accept (List.replicate 6 authorizedRequest) (World.start ()))
        interleaved).world.requestCount = 1 ∧
    (Server.run HelloHandler
        (Server.accept (List.replicate 6 authorizedRequest) (World.start ()))
        interleaved).goroutines.map (fun g => (g.w, g.phase))
      = List.replicate 6 ({ status := some 200, body := "Hello, user!\n" }, Phase.returned) := by
  set_option maxRecDepth 100000 in
  decide

end DecoratorPattern
